import Mathlib

/-!
Verification of the vnrs strategy-template / backtesting specification.

The Python strategy template (`CtaTemplate` and its two example subclasses
`DoubleMaStrategy`, `GridStrategy` from `examples/strategy_example.py`) is
embedded shallowly below.  Python floats are modelled as rationals, Python
dicts as association lists, `print`-based logging as a log list carried in
the strategy state.  Dict subscription `d[k] += v` raises `KeyError` when
the key is absent, so `on_trade` is modelled as an `Option`-valued update.
The Rust matching engine and statistics calculator are not part of the
sources; where a claim needs them they are modelled from the spec (their
definitions say so in their doc comments).
-/

set_option autoImplicit false

namespace Vnrs

/-- Lookup in an association list modelling a Python dict (`d[k]` /
`d.get(k)`): returns the value at the first matching key. -/
def dget {κ ν : Type} [DecidableEq κ] (d : List (κ × ν)) (k : κ) : Option ν :=
  match d with
  | [] => none
  | (k', v) :: rest => if k' = k then some v else dget rest k

/-- Update in an association list modelling a Python dict (`d[k] = v`):
replaces the value at an existing key, otherwise appends the pair
(Python dicts keep insertion order). -/
def dset {κ ν : Type} [DecidableEq κ] (d : List (κ × ν)) (k : κ) (v : ν) :
    List (κ × ν) :=
  match d with
  | [] => [(k, v)]
  | (k', v') :: rest => if k' = k then (k', v) :: rest else (k', v') :: dset rest k v

/-- Trade record, mirroring the trade dict dispatched to `on_trade`
(`tradeid`, `orderid`, `symbol`, `exchange`, `direction`, `offset`,
`price`, `volume`; the datetime field is irrelevant to position updates
and carried as an abstract timestamp). -/
structure Trade where
  tradeid : String
  orderid : String
  symbol : String
  exchange : String
  direction : String
  offset : String
  price : ℚ
  volume : ℚ
  timestamp : ℕ
  deriving DecidableEq, Repr

/-- The vt_symbol key used by `on_trade`: `f"{symbol}.{exchange}"`. -/
def Trade.vtSymbol (t : Trade) : String :=
  t.symbol ++ "." ++ t.exchange

/-- State of a `CtaTemplate` instance: the fields set in `__init__`.
The `parameters` / `variables` any-typed dicts are omitted (no claim
touches them); `print` output of `write_log` is accumulated in `log`. -/
structure CtaState where
  strategy_name : String
  vt_symbols : List String
  strategy_type : String
  inited : Bool
  trading : Bool
  positions : List (String × ℚ)
  log : List String
  deriving DecidableEq, Repr

/-- Constructor `CtaTemplate.__init__`: flags start false, every
subscribed symbol gets position 0.0. -/
def CtaTemplate.mkState (strategy_name : String) (vt_symbols : List String)
    (strategy_type : String) : CtaState :=
  { strategy_name := strategy_name
    vt_symbols := vt_symbols
    strategy_type := strategy_type
    inited := false
    trading := false
    positions := vt_symbols.foldl (fun d s => dset d s 0) []
    log := [] }

/-- Method `CtaTemplate.write_log`: prints (here: appends to the log)
`f"[{self.strategy_name}] {msg}"`; touches no other state. -/
def CtaState.write_log (st : CtaState) (msg : String) : CtaState :=
  { st with log := st.log ++ ["[" ++ st.strategy_name ++ "] " ++ msg] }

/-- Method `CtaTemplate.get_pos`: `self.positions.get(vt_symbol, 0.0)` —
total, returns 0 for unknown symbols. -/
def CtaState.get_pos (st : CtaState) (vt_symbol : String) : ℚ :=
  (dget st.positions vt_symbol).getD 0

/-- Method `CtaTemplate.on_trade`: updates `self.positions[vt_symbol]`
by the side/offset rule.  The Python statement `self.positions[k] += v`
raises `KeyError` when `k` is absent, modelled by `none`. -/
def CtaState.on_trade (st : CtaState) (t : Trade) : Option CtaState :=
  (dget st.positions t.vtSymbol).map fun p =>
    if t.direction = "long" then
      if t.offset = "open" then
        { st with positions := dset st.positions t.vtSymbol (p + t.volume) }
      else
        { st with positions := dset st.positions t.vtSymbol (p - t.volume) }
    else
      if t.offset = "open" then
        { st with positions := dset st.positions t.vtSymbol (p - t.volume) }
      else
        { st with positions := dset st.positions t.vtSymbol (p + t.volume) }

/-- The signed position delta of a single trade as the spec states it in
section 3: `+volume` for (long, open) and (short, close); `-volume` for
(short, open) and (long, close). -/
def Trade.signedDelta (t : Trade) : ℚ :=
  if t.direction = "long" then
    (if t.offset = "open" then t.volume else -t.volume)
  else
    (if t.offset = "open" then -t.volume else t.volume)

/-- Order request as handed to `_send_order` (vt_symbol, price, volume,
direction, offset, lock). -/
structure OrderReq where
  vt_symbol : String
  price : ℚ
  volume : ℚ
  direction : String
  offset : String
  lock : Bool
  deriving DecidableEq, Repr

/-- Result of an order-submission call: the returned order-id string, the
order handed to the engine (`none` when the call rejected and submitted
nothing), and the strategy state afterwards. -/
structure SendResult where
  orderid : String
  submitted : Option OrderReq
  state : CtaState
  deriving DecidableEq, Repr

/-- Method `CtaTemplate._send_order`: logs the order and returns
`f"order_{datetime.now().timestamp()}"`; the wall-clock reading is the
explicit `now` argument. -/
def CtaState.send_order (st : CtaState) (now : String) (vt_symbol : String)
    (price volume : ℚ) (direction offset : String) (lock : Bool) : SendResult :=
  { orderid := "order_" ++ now
    submitted := some ⟨vt_symbol, price, volume, direction, offset, lock⟩
    state := st.write_log ("Send order: " ++ vt_symbol ++ " " ++ direction
      ++ " " ++ offset ++ " @ " ++ toString price ++ " x" ++ toString volume) }

/-- Method `CtaTemplate.buy`: rejected with an empty id when `trading` is
false, otherwise submits (long, open). -/
def CtaState.buy (st : CtaState) (now : String) (vt_symbol : String)
    (price volume : ℚ) (lock : Bool) : SendResult :=
  if !st.trading then
    { orderid := "", submitted := none, state := st }
  else
    st.send_order now vt_symbol price volume "long" "open" lock

/-- Method `CtaTemplate.sell`: rejected with an empty id when `trading` is
false; offset is "close" for futures strategies and "open" otherwise. -/
def CtaState.sell (st : CtaState) (now : String) (vt_symbol : String)
    (price volume : ℚ) (lock : Bool) : SendResult :=
  if !st.trading then
    { orderid := "", submitted := none, state := st }
  else
    let offset := if st.strategy_type = "futures" then "close" else "open"
    st.send_order now vt_symbol price volume "short" offset lock

/-- Method `CtaTemplate.short`: rejected (log + empty id) for spot
strategies, rejected silently when `trading` is false, otherwise submits
(short, open). -/
def CtaState.short (st : CtaState) (now : String) (vt_symbol : String)
    (price volume : ℚ) (lock : Bool) : SendResult :=
  if st.strategy_type = "spot" then
    { orderid := ""
      submitted := none
      state := st.write_log "Short not supported for spot trading" }
  else if !st.trading then
    { orderid := "", submitted := none, state := st }
  else
    st.send_order now vt_symbol price volume "short" "open" lock

/-- Method `CtaTemplate.cover`: rejected (log + empty id) for spot
strategies, rejected silently when `trading` is false, otherwise submits
(long, close). -/
def CtaState.cover (st : CtaState) (now : String) (vt_symbol : String)
    (price volume : ℚ) (lock : Bool) : SendResult :=
  if st.strategy_type = "spot" then
    { orderid := ""
      submitted := none
      state := st.write_log "Cover not supported for spot trading" }
  else if !st.trading then
    { orderid := "", submitted := none, state := st }
  else
    st.send_order now vt_symbol price volume "long" "close" lock

/-- Method `CtaTemplate.cancel_order`: no-op when not trading, otherwise
logs. -/
def CtaState.cancel_order (st : CtaState) (vt_orderid : String) : CtaState :=
  if !st.trading then st
  else st.write_log ("Cancel order: " ++ vt_orderid)

/-- Method `CtaTemplate.cancel_all`: no-op when not trading, otherwise
logs. -/
def CtaState.cancel_all (st : CtaState) : CtaState :=
  if !st.trading then st
  else st.write_log "Cancel all orders"

/-- Method `CtaTemplate.on_init` (base): logs only. -/
def CtaState.on_init (st : CtaState) : CtaState :=
  st.write_log "Strategy initialized"

/-- Method `CtaTemplate.on_start` (base): logs only — it does not touch
the `trading` flag. -/
def CtaState.on_start (st : CtaState) : CtaState :=
  st.write_log "Strategy started"

/-- Method `CtaTemplate.on_stop` (base): logs only — it does not touch
the `trading` flag. -/
def CtaState.on_stop (st : CtaState) : CtaState :=
  st.write_log "Strategy stopped"

/-- Method `CtaTemplate.load_bars`: logs only (the engine call is a
placeholder comment in the source). -/
def CtaState.load_bars (st : CtaState) (days : ℕ) (interval : String) : CtaState :=
  st.write_log ("Loading " ++ toString days ++ " days of " ++ interval ++ " bars")

/-- Bar record, mirroring the bar dict (`open` is a Lean keyword, hence
`open_price`). -/
structure Bar where
  symbol : String
  exchange : String
  timestamp : ℕ
  interval : String
  open_price : ℚ
  high : ℚ
  low : ℚ
  close : ℚ
  volume : ℚ
  deriving DecidableEq, Repr

/-- Tick record, mirroring the tick dict. -/
structure Tick where
  symbol : String
  exchange : String
  timestamp : ℕ
  last_price : ℚ
  volume : ℚ
  bid_price_1 : ℚ
  ask_price_1 : ℚ
  deriving DecidableEq, Repr

/-- Order-status record as handed to `on_order`. -/
structure OrderDict where
  orderid : String
  symbol : String
  direction : String
  offset : String
  price : ℚ
  volume : ℚ
  traded : ℚ
  status : String
  deriving DecidableEq, Repr

/-- Methods `CtaTemplate.on_tick` / `on_bar` / `on_order` (base): `pass`. -/
def CtaState.on_tick (st : CtaState) (_tick : Tick) : CtaState := st

/-- Method `CtaTemplate.on_bar` (base): `pass`. -/
def CtaState.on_bar (st : CtaState) (_bar : Bar) : CtaState := st

/-- Method `CtaTemplate.on_order` (base): `pass`. -/
def CtaState.on_order (st : CtaState) (_order : OrderDict) : CtaState := st

/-- State of a `DoubleMaStrategy` instance: the inherited `CtaTemplate`
state plus the subclass fields set in its `__init__`. -/
structure DmaState where
  base : CtaState
  fast_window : ℕ
  slow_window : ℕ
  fixed_size : ℚ
  fast_ma : ℚ
  slow_ma : ℚ
  ma_trend : ℤ
  bars : List Bar
  deriving DecidableEq, Repr

/-- Method `DoubleMaStrategy.on_init`: log, `load_bars(10, "1m")`,
`inited = True`. -/
def DmaState.on_init (st : DmaState) : DmaState :=
  let b := (st.base.write_log "Initializing DoubleMaStrategy").load_bars 10 "1m"
  { st with base := { b with inited := true } }

/-- Method `DoubleMaStrategy.on_start`: log, `trading = True`. -/
def DmaState.on_start (st : DmaState) : DmaState :=
  let b := st.base.write_log "Starting DoubleMaStrategy"
  { st with base := { b with trading := true } }

/-- Method `DoubleMaStrategy.on_stop`: log, `trading = False`. -/
def DmaState.on_stop (st : DmaState) : DmaState :=
  let b := st.base.write_log "Stopping DoubleMaStrategy"
  { st with base := { b with trading := false } }

/-- Method `DoubleMaStrategy.calculate_ma`: means of the closes of the
last `fast_window` / `slow_window` bars (Python slice `bars[-w:]` is
`drop (length - w)`); the mirror updates into the omitted `variables`
dict are dropped. -/
def DmaState.calculate_ma (st : DmaState) : DmaState :=
  if st.bars.length < st.slow_window then st
  else
    let fast_data := st.bars.drop (st.bars.length - st.fast_window)
    let fast_ma := (fast_data.map Bar.close).sum / (st.fast_window : ℚ)
    let slow_data := st.bars.drop (st.bars.length - st.slow_window)
    let slow_ma := (slow_data.map Bar.close).sum / (st.slow_window : ℚ)
    { st with fast_ma := fast_ma, slow_ma := slow_ma }

/-- Method `DoubleMaStrategy.on_bar`: append the bar, trim history,
recompute MAs, and on a fresh cross place a buy (golden cross, flat or
short position) or a sell (death cross, long position).  The order-id
clock argument of `buy`/`sell` is irrelevant here because the returned
id is discarded; it is passed as `""`. -/
def DmaState.on_bar (st : DmaState) (bar : Bar) : DmaState :=
  let st := { st with bars := st.bars ++ [bar] }
  let st := if st.bars.length > st.slow_window * 2
            then { st with bars := st.bars.drop 1 } else st
  if st.bars.length < st.slow_window then st
  else
    let st := st.calculate_ma
    let vt_symbol := bar.symbol ++ "." ++ bar.exchange
    let pos := st.base.get_pos vt_symbol
    if st.fast_ma > st.slow_ma then
      if st.ma_trend ≠ 1 then
        let st := { st with ma_trend := 1 }
        if pos ≤ 0 then
          { st with base := (st.base.buy "" vt_symbol bar.close st.fixed_size false).state }
        else st
      else st
    else if st.fast_ma < st.slow_ma then
      if st.ma_trend ≠ -1 then
        let st := { st with ma_trend := -1 }
        if pos > 0 then
          { st with base := (st.base.sell "" vt_symbol bar.close |pos| false).state }
        else st
      else st
    else st

/-- State of a `GridStrategy` instance.  The Python source keys the
`buy_orders` / `sell_orders` dicts by `str(price)`; they are modelled as
association lists keyed by the (exact rational) price itself, which has
the same membership semantics here. -/
structure GridState where
  base : CtaState
  grid_size : ℚ
  grid_num : ℕ
  order_size : ℚ
  buy_orders : List (ℚ × String)
  sell_orders : List (ℚ × String)
  last_price : ℚ
  deriving DecidableEq, Repr

/-- Method `GridStrategy.on_init`: log, `inited = True`. -/
def GridState.on_init (st : GridState) : GridState :=
  let b := st.base.write_log "Initializing GridStrategy"
  { st with base := { b with inited := true } }

/-- Method `GridStrategy.on_start`: log, `trading = True`. -/
def GridState.on_start (st : GridState) : GridState :=
  let b := st.base.write_log "Starting GridStrategy"
  { st with base := { b with trading := true } }

/-- Method `GridStrategy.on_stop`: log, `cancel_all()`, `trading = False`. -/
def GridState.on_stop (st : GridState) : GridState :=
  let b := (st.base.write_log "Stopping GridStrategy").cancel_all
  { st with base := { b with trading := false } }

/-- Method `GridStrategy.check_grid_orders`: for grid levels
`i = 1 .. grid_num`, place a buy `i*grid_size` below and a sell
`i*grid_size` above the current price, recording the order id when the
call returned one (a truthy, i.e. non-empty, id string). -/
def GridState.check_grid_orders (st : GridState) (now : String) (tick : Tick) :
    GridState :=
  let vt_symbol := tick.symbol ++ "." ++ tick.exchange
  let current_price := tick.last_price
  let st := (List.range st.grid_num).foldl (fun st i =>
    let buy_price := current_price - ((i : ℚ) + 1) * st.grid_size
    if (dget st.buy_orders buy_price).isNone then
      let r := st.base.buy now vt_symbol buy_price st.order_size false
      let st := { st with base := r.state }
      if r.orderid ≠ "" then
        { st with buy_orders := dset st.buy_orders buy_price r.orderid }
      else st
    else st) st
  (List.range st.grid_num).foldl (fun st i =>
    let sell_price := current_price + ((i : ℚ) + 1) * st.grid_size
    if (dget st.sell_orders sell_price).isNone then
      let r := st.base.sell now vt_symbol sell_price st.order_size false
      let st := { st with base := r.state }
      if r.orderid ≠ "" then
        { st with sell_orders := dset st.sell_orders sell_price r.orderid }
      else st
    else st) st

/-- Method `GridStrategy.on_tick`: record the last price and refresh the
grid orders. -/
def GridState.on_tick (st : GridState) (now : String) (tick : Tick) : GridState :=
  let st := { st with last_price := tick.last_price }
  st.check_grid_orders now tick

/-- Method `GridStrategy.on_trade`: `super().on_trade(trade)` (which can
raise `KeyError`, hence `Option`), then place the reverse grid order. -/
def GridState.on_trade (st : GridState) (now : String) (t : Trade) :
    Option GridState :=
  (st.base.on_trade t).map fun b =>
    let st := { st with base := b }
    if t.direction = "long" then
      let sell_price := t.price + st.grid_size
      { st with base := (st.base.sell now t.vtSymbol sell_price t.volume false).state }
    else
      let buy_price := t.price - st.grid_size
      { st with base := (st.base.buy now t.vtSymbol buy_price t.volume false).state }

/-- A strategy instance: the base template or one of the two example
subclasses; method calls dispatch to the override when one exists. -/
inductive Strategy
  | base (st : CtaState)
  | dma (st : DmaState)
  | grid (st : GridState)
  deriving DecidableEq, Repr

/-- The inherited `CtaTemplate` portion of any strategy instance. -/
def Strategy.ctaState : Strategy → CtaState
  | .base st => st
  | .dma st => st.base
  | .grid st => st.base

/-- Positions map of a strategy instance. -/
def Strategy.positions (s : Strategy) : List (String × ℚ) :=
  s.ctaState.positions

/-- Trading flag of a strategy instance. -/
def Strategy.trading (s : Strategy) : Bool :=
  s.ctaState.trading

/-- Apply an inherited (non-overridden) `CtaTemplate` method to the base
portion of a strategy instance. -/
def Strategy.mapBase (f : CtaState → CtaState) : Strategy → Strategy
  | .base st => .base (f st)
  | .dma st => .dma { st with base := f st.base }
  | .grid st => .grid { st with base := f st.base }

/-- Dispatch of `on_init` (both subclasses override it). -/
def Strategy.on_init : Strategy → Strategy
  | .base st => .base st.on_init
  | .dma st => .dma st.on_init
  | .grid st => .grid st.on_init

/-- Dispatch of `on_start` (both subclasses override it). -/
def Strategy.on_start : Strategy → Strategy
  | .base st => .base st.on_start
  | .dma st => .dma st.on_start
  | .grid st => .grid st.on_start

/-- Dispatch of `on_stop` (both subclasses override it). -/
def Strategy.on_stop : Strategy → Strategy
  | .base st => .base st.on_stop
  | .dma st => .dma st.on_stop
  | .grid st => .grid st.on_stop

/-- Dispatch of `on_bar` (only `DoubleMaStrategy` overrides it). -/
def Strategy.on_bar (s : Strategy) (bar : Bar) : Strategy :=
  match s with
  | .base st => .base (st.on_bar bar)
  | .dma st => .dma (st.on_bar bar)
  | .grid st => .grid { st with base := st.base.on_bar bar }

/-- Dispatch of `on_tick` (only `GridStrategy` overrides it). -/
def Strategy.on_tick (s : Strategy) (now : String) (tick : Tick) : Strategy :=
  match s with
  | .base st => .base (st.on_tick tick)
  | .dma st => .dma { st with base := st.base.on_tick tick }
  | .grid st => .grid (st.on_tick now tick)

/-- Dispatch of `on_order` (no subclass overrides it). -/
def Strategy.on_order (s : Strategy) (o : OrderDict) : Strategy :=
  s.mapBase (fun st => st.on_order o)

/-- Inherited `buy` (state part; no subclass overrides it). -/
def Strategy.buy (s : Strategy) (now sym : String) (p v : ℚ) (lk : Bool) :
    Strategy :=
  s.mapBase (fun st => (st.buy now sym p v lk).state)

/-- Inherited `sell` (state part). -/
def Strategy.sell (s : Strategy) (now sym : String) (p v : ℚ) (lk : Bool) :
    Strategy :=
  s.mapBase (fun st => (st.sell now sym p v lk).state)

/-- Inherited `short` (state part). -/
def Strategy.short (s : Strategy) (now sym : String) (p v : ℚ) (lk : Bool) :
    Strategy :=
  s.mapBase (fun st => (st.short now sym p v lk).state)

/-- Inherited `cover` (state part). -/
def Strategy.cover (s : Strategy) (now sym : String) (p v : ℚ) (lk : Bool) :
    Strategy :=
  s.mapBase (fun st => (st.cover now sym p v lk).state)

/-- Inherited `cancel_order`. -/
def Strategy.cancel_order (s : Strategy) (oid : String) : Strategy :=
  s.mapBase (fun st => st.cancel_order oid)

/-- Inherited `cancel_all`. -/
def Strategy.cancel_all (s : Strategy) : Strategy :=
  s.mapBase CtaState.cancel_all

/-- Inherited `get_pos` (pure query). -/
def Strategy.get_pos (s : Strategy) (sym : String) : ℚ :=
  s.ctaState.get_pos sym

/-- Dispatching a finite list of trades to the template's `on_trade` in
order; `none` when some dispatch raises `KeyError`. -/
def CtaState.replay (st : CtaState) : List Trade → Option CtaState
  | [] => some st
  | t :: ts =>
    match st.on_trade t with
    | none => none
    | some st' => st'.replay ts

/-- The per-symbol signed sum of trade volumes, each volume signed by the
side/offset rule, as the round-trip property of the spec's section 8
states it. -/
def signedSum (sym : String) : List Trade → ℚ
  | [] => 0
  | t :: ts => (if t.vtSymbol = sym then t.signedDelta else 0) + signedSum sym ts

/-- Sample strategy instance used by the concrete witnesses. -/
def exState : CtaState := CtaTemplate.mkState "s" ["BTCUSDT.BINANCE"] "spot"

/-- Sample trade used by the concrete witnesses. -/
def exTrade : Trade :=
  { tradeid := "t1", orderid := "o1", symbol := "BTCUSDT", exchange := "BINANCE"
    direction := "long", offset := "open", price := 100, volume := 2, timestamp := 0 }

/-- Result of applying `exTrade` to `exState` (the stored value is kept
as the unevaluated sum `0 + 2` so the equation is definitional). -/
def exState' : CtaState :=
  { exState with positions := dset exState.positions "BTCUSDT.BINANCE" (0 + 2) }

/-- Modelled from the spec: a bar as the Rust matching engine (absent
from src/) sees it — timestamp plus the low/high range that decides
fills. -/
structure MBar where
  ts : ℕ
  low : ℚ
  high : ℚ
  deriving DecidableEq, Repr

/-- Modelled from the spec: an order request issued by the strategy
during the dispatch of a bar (side and limit price). -/
structure MOrderReq where
  isBuy : Bool
  price : ℚ
  deriving DecidableEq, Repr

/-- Modelled from the spec: a pending order of the simulated Order Book
(section 3), stamped with the timestamp of the bar whose dispatch
created it. -/
structure MOrder where
  id : ℕ
  isBuy : Bool
  price : ℚ
  created_ts : ℕ
  deriving DecidableEq, Repr

/-- Modelled from the spec: a trade record (section 3) carrying its
originating order's id and creation timestamp. -/
structure MTrade where
  order_id : ℕ
  order_created_ts : ℕ
  price : ℚ
  ts : ℕ
  deriving DecidableEq, Repr

/-- Modelled from the spec: matching-engine state — the pending orders,
the append-only trade log, and the order-id counter. -/
structure MEngine where
  pending : List MOrder
  trades : List MTrade
  next_id : ℕ
  deriving DecidableEq, Repr

/-- Modelled from the spec (section 4.3): fill price of an eligible
order against a bar.  A buy fills fully at `min(price, high)` when
`low ≤ price`; a sell symmetrically at `max(price, low)` when
`price ≤ high`; otherwise the order stays pending. -/
def fillPrice (o : MOrder) (b : MBar) : Option ℚ :=
  if o.isBuy then
    (if b.low ≤ o.price then some (min o.price b.high) else none)
  else
    (if o.price ≤ b.high then some (max o.price b.low) else none)

/-- Modelled from the spec (sections 4.1 and 4.3): one replay step of
the engine.  The bar is dispatched to the strategy first (`strat`
returns the order requests it submits, which the engine stamps with the
bar's timestamp); then the orders already pending — all submitted during
the dispatch of earlier bars — are matched against the bar; the fresh
orders are appended afterwards and become eligible only from the next
bar on. -/
def stepBar (strat : MBar → List MOrderReq) (e : MEngine) (b : MBar) : MEngine :=
  let reqs := strat b
  let fresh := ((List.range reqs.length).zip reqs).map fun p =>
    { id := e.next_id + p.1, isBuy := p.2.isBuy, price := p.2.price
      created_ts := b.ts : MOrder }
  let filled := e.pending.filterMap fun o =>
    (fillPrice o b).map fun pr =>
      { order_id := o.id, order_created_ts := o.created_ts, price := pr
        ts := b.ts : MTrade }
  let remaining := e.pending.filter fun o => (fillPrice o b).isNone
  { pending := remaining ++ fresh
    trades := e.trades ++ filled
    next_id := e.next_id + reqs.length }

/-- Modelled from the spec: the replay loop over the bar series. -/
def runBars (strat : MBar → List MOrderReq) (e : MEngine) (bars : List MBar) :
    MEngine :=
  bars.foldl (stepBar strat) e

/-- Modelled from the spec: the engine state at the start of a run —
no pending orders, no trades. -/
def MEngine.initial : MEngine :=
  { pending := [], trades := [], next_id := 0 }

/-- Modelled from the spec (section 4.5): mean of the daily-return
series. -/
def listMean (r : List ℚ) : ℚ := r.sum / r.length

/-- Modelled from the spec (section 4.5): sample variance (denominator
`n - 1`, not `n`) of the daily-return series. -/
def sampleVar (r : List ℚ) : ℚ :=
  if r.length ≤ 1 then 0
  else (r.map (fun x => (x - listMean r) ^ 2)).sum / ((r.length : ℚ) - 1)

/-- Modelled from the spec (sections 4.5 and 7): the Sharpe ratio is
`mean(daily_returns) / stdev(daily_returns) * sqrt(252)` with the sample
standard deviation, and the defined fallback value 0 when the standard
deviation is zero — a total function, never an error. -/
noncomputable def sharpe (r : List ℚ) : ℝ :=
  if sampleVar r = 0 then 0
  else ((listMean r : ℝ) / Real.sqrt ((sampleVar r : ℚ) : ℝ)) * Real.sqrt 252

/-- Sample strategy of the matching-model witness: submit one buy order
at the bar with timestamp 1. -/
def exStrat : MBar → List MOrderReq := fun b =>
  if b.ts = 1 then [{ isBuy := true, price := 10 }] else []

/-- Sample bar series of the matching-model witness. -/
def exBars : List MBar :=
  [{ ts := 1, low := 5, high := 6 }, { ts := 2, low := 5, high := 20 }]

/-- Sample spot strategy with trading enabled, for witnesses. -/
def exSpotTrading : CtaState := { exState with trading := true }

/-- Sample futures strategy with trading enabled, for witnesses. -/
def exFutures : CtaState :=
  { CtaTemplate.mkState "f" ["ESZ4.CME"] "futures" with trading := true }

/-- Sample strategy subscribed to no symbol, for the C2 counterexample. -/
def exEmpty : CtaState := CtaTemplate.mkState "s" [] "spot"

theorem dget_dset {κ ν : Type} [DecidableEq κ] (d : List (κ × ν)) (k k' : κ) (v : ν) :
    dget (dset d k v) k' = if k = k' then some v else dget d k' := by
  induction d with
  | nil =>
    by_cases h : k = k' <;> simp [dget, dset, h]
  | cons p rest ih =>
    obtain ⟨k0, v0⟩ := p
    by_cases h0 : k0 = k
    · subst h0
      by_cases h1 : k0 = k' <;> simp [dget, dset, h1]
    · by_cases h1 : k0 = k'
      · subst h1
        have hne : ¬k = k0 := fun he => h0 he.symm
        simp [dget, dset, h0, hne]
      · simp [dget, dset, h0, h1, ih]

theorem on_trade_some_iff (st : CtaState) (t : Trade) :
    (st.on_trade t).isSome ↔ (dget st.positions t.vtSymbol).isSome := by
  unfold CtaState.on_trade
  cases h : dget st.positions t.vtSymbol <;> simp [h]

theorem on_trade_get_pos (st st' : CtaState) (t : Trade)
    (h : st.on_trade t = some st') (sym : String) :
    st'.get_pos sym =
      st.get_pos sym + (if t.vtSymbol = sym then t.signedDelta else 0) := by
  unfold CtaState.on_trade at h
  cases hd : dget st.positions t.vtSymbol with
  | none => rw [hd] at h; exact absurd h (by simp)
  | some p =>
    rw [hd] at h
    simp only [Option.map_some'] at h
    have hp : st.get_pos t.vtSymbol = p := by
      unfold CtaState.get_pos; rw [hd]; rfl
    unfold Trade.signedDelta
    split at h <;> split at h <;>
      { cases h
        unfold CtaState.get_pos
        simp only [dget_dset]
        by_cases hs : t.vtSymbol = sym
        · subst hs
          simp_all [CtaState.get_pos]
          try ring
        · simp [hs] }

theorem write_log_positions (st : CtaState) (m : String) :
    (st.write_log m).positions = st.positions := rfl

theorem write_log_trading (st : CtaState) (m : String) :
    (st.write_log m).trading = st.trading := rfl

theorem send_order_state_positions (st : CtaState) (now sym : String)
    (p v : ℚ) (dir off : String) (lk : Bool) :
    (st.send_order now sym p v dir off lk).state.positions = st.positions := rfl

theorem buy_state_positions (st : CtaState) (now sym : String)
    (p v : ℚ) (lk : Bool) :
    (st.buy now sym p v lk).state.positions = st.positions := by
  unfold CtaState.buy
  split <;> rfl

theorem sell_state_positions (st : CtaState) (now sym : String)
    (p v : ℚ) (lk : Bool) :
    (st.sell now sym p v lk).state.positions = st.positions := by
  unfold CtaState.sell
  split <;> rfl

theorem short_state_positions (st : CtaState) (now sym : String)
    (p v : ℚ) (lk : Bool) :
    (st.short now sym p v lk).state.positions = st.positions := by
  unfold CtaState.short
  split
  · rfl
  · split <;> rfl

theorem cover_state_positions (st : CtaState) (now sym : String)
    (p v : ℚ) (lk : Bool) :
    (st.cover now sym p v lk).state.positions = st.positions := by
  unfold CtaState.cover
  split
  · rfl
  · split <;> rfl

theorem cancel_order_positions (st : CtaState) (oid : String) :
    (st.cancel_order oid).positions = st.positions := by
  unfold CtaState.cancel_order
  split <;> rfl

theorem cancel_all_positions (st : CtaState) :
    st.cancel_all.positions = st.positions := by
  unfold CtaState.cancel_all
  split <;> rfl

theorem calculate_ma_base (st : DmaState) :
    st.calculate_ma.base = st.base := by
  unfold DmaState.calculate_ma
  split <;> rfl

theorem dma_on_bar_positions (st : DmaState) (bar : Bar) :
    (st.on_bar bar).base.positions = st.base.positions := by
  simp only [DmaState.on_bar]
  split_ifs <;>
    simp_all [calculate_ma_base, buy_state_positions, sell_state_positions]

theorem foldl_grid_positions {α : Type} (f : GridState → α → GridState)
    (h : ∀ st a, (f st a).base.positions = st.base.positions) :
    ∀ (l : List α) (st : GridState),
      (l.foldl f st).base.positions = st.base.positions := by
  intro l
  induction l with
  | nil => intro st; rfl
  | cons a l ih => intro st; rw [List.foldl_cons, ih, h]

theorem check_grid_orders_positions (st : GridState) (now : String) (tick : Tick) :
    (st.check_grid_orders now tick).base.positions = st.base.positions := by
  unfold GridState.check_grid_orders
  rw [foldl_grid_positions, foldl_grid_positions]
  · intro st a
    dsimp only
    split_ifs <;> simp [buy_state_positions]
  · intro st a
    dsimp only
    split_ifs <;> simp [sell_state_positions]

theorem grid_on_tick_positions (st : GridState) (now : String) (tick : Tick) :
    (st.on_tick now tick).base.positions = st.base.positions := by
  unfold GridState.on_tick
  rw [check_grid_orders_positions]

theorem on_trade_preserves_keys (st st' : CtaState) (t : Trade)
    (h : st.on_trade t = some st') (k : String)
    (hk : (dget st.positions k).isSome) : (dget st'.positions k).isSome := by
  unfold CtaState.on_trade at h
  cases hd : dget st.positions t.vtSymbol with
  | none => rw [hd] at h; exact absurd h (by simp)
  | some p =>
    rw [hd] at h
    simp only [Option.map_some'] at h
    split at h <;> split at h <;>
      (cases h; simp only [dget_dset]; split <;> simp_all)

theorem replay_get_pos (trades : List Trade) : ∀ st : CtaState,
    (∀ t ∈ trades, (dget st.positions t.vtSymbol).isSome) →
    ∃ st', st.replay trades = some st' ∧
      ∀ sym, st'.get_pos sym = st.get_pos sym + signedSum sym trades := by
  induction trades with
  | nil =>
    intro st _
    exact ⟨st, rfl, fun sym => by simp [signedSum]⟩
  | cons t ts ih =>
    intro st hk
    have h1 : (st.on_trade t).isSome :=
      (on_trade_some_iff st t).mpr (hk t (by simp))
    obtain ⟨st1, hst1⟩ := Option.isSome_iff_exists.mp h1
    have hk' : ∀ u ∈ ts, (dget st1.positions u.vtSymbol).isSome := by
      intro u hu
      exact on_trade_preserves_keys st st1 t hst1 u.vtSymbol (hk u (by simp [hu]))
    obtain ⟨st', hrep, hpos⟩ := ih st1 hk'
    refine ⟨st', ?_, ?_⟩
    · unfold CtaState.replay
      rw [hst1]
      exact hrep
    · intro sym
      rw [hpos sym, on_trade_get_pos st st1 t hst1 sym]
      simp only [signedSum]
      ring

theorem foldl_dset_zero (syms : List String) :
    ∀ d : List (String × ℚ), (∀ k, (dget d k).getD 0 = 0) →
      ∀ k, (dget (syms.foldl (fun d s => dset d s 0) d) k).getD 0 = 0 := by
  induction syms with
  | nil => intro d hd k; exact hd k
  | cons s ss ih =>
    intro d hd k
    rw [List.foldl_cons]
    refine ih _ ?_ k
    intro k'
    rw [dget_dset]
    split <;> simp [hd k']

theorem mkState_get_pos (name : String) (syms : List String) (ty sym : String) :
    (CtaTemplate.mkState name syms ty).get_pos sym = 0 := by
  unfold CtaTemplate.mkState CtaState.get_pos
  exact foldl_dset_zero syms [] (fun _ => rfl) sym

theorem runBars_no_lookahead (strat : MBar → List MOrderReq) :
    ∀ (bars : List MBar) (e : MEngine),
      bars.Pairwise (fun b1 b2 => b1.ts < b2.ts) →
      (∀ o ∈ e.pending, ∀ b ∈ bars, o.created_ts < b.ts) →
      (∀ tr ∈ e.trades, tr.order_created_ts < tr.ts) →
      ∀ tr ∈ (runBars strat e bars).trades, tr.order_created_ts < tr.ts := by
  intro bars
  induction bars with
  | nil => intro e _ _ htr; exact htr
  | cons b bs ih =>
    intro e hp hpend htr
    rw [List.pairwise_cons] at hp
    refine ih (stepBar strat e b) hp.2 ?_ ?_
    · intro o ho b' hb'
      simp only [stepBar, List.mem_append] at ho
      rcases ho with ho | ho
      · exact hpend o (List.mem_of_mem_filter ho) b' (by simp [hb'])
      · simp only [List.mem_map] at ho
        obtain ⟨p, _, rfl⟩ := ho
        exact hp.1 b' hb'
    · intro tr htr'
      simp only [stepBar, List.mem_append] at htr'
      rcases htr' with h | h
      · exact htr tr h
      · simp only [List.mem_filterMap] at h
        obtain ⟨o, ho, hfo⟩ := h
        cases hf : fillPrice o b with
        | none => rw [hf] at hfo; exact absurd hfo (by simp)
        | some pr =>
          rw [hf] at hfo
          simp only [Option.map_some', Option.some.injEq] at hfo
          subst hfo
          exact hpend o ho b (by simp)

theorem sampleVar_const (r : List ℚ) (h : ∀ x ∈ r, ∀ y ∈ r, x = y) :
    sampleVar r = 0 := by
  unfold sampleVar
  split
  · rfl
  · rename_i hlen
    push_neg at hlen
    obtain ⟨a, bs, rfl⟩ : ∃ a bs, r = a :: bs := by
      cases r with
      | nil => simp at hlen
      | cons a bs => exact ⟨a, bs, rfl⟩
    have hall : ∀ x ∈ a :: bs, x = a := fun x hx => h x hx a (by simp)
    have hsum : (a :: bs).sum = (a :: bs).length • a :=
      List.sum_eq_card_nsmul _ a hall
    have hlen0 : (((a :: bs).length : ℚ)) ≠ 0 := by
      simp only [List.length_cons]
      push_cast
      positivity
    have hmean : listMean (a :: bs) = a := by
      unfold listMean
      rw [hsum, nsmul_eq_mul, mul_comm, mul_div_assoc, div_self hlen0, mul_one]
    have hzero : ∀ x ∈ (a :: bs).map (fun x => (x - listMean (a :: bs)) ^ 2), x = 0 := by
      intro x hx
      simp only [List.mem_map] at hx
      obtain ⟨y, hy, rfl⟩ := hx
      rw [hmean, hall y hy]
      ring
    rw [List.sum_eq_card_nsmul _ 0 hzero]
    simp

/-- C1: applying a trade through `on_trade` changes the position recorded
for the trade's symbol by `+volume` when the trade is (long, open) or
(short, non-open offset), and by `-volume` when it is (short, open) or
(long, non-open offset); the delta depends on no other field of the
trade. -/
theorem C1_on_trade_position_delta (st st' : CtaState) (t : Trade)
    (h : st.on_trade t = some st') :
    st'.get_pos t.vtSymbol =
      st.get_pos t.vtSymbol +
        (if t.direction = "long" then
          (if t.offset = "open" then t.volume else -t.volume)
        else
          (if t.offset = "open" then -t.volume else t.volume)) := by
  have hh := on_trade_get_pos st st' t h t.vtSymbol
  simpa [Trade.signedDelta] using hh

/-- C1 witness: the sample buy-open trade of volume 2 moves the sample
strategy's position from 0 to 2. -/
theorem C1_witness :
    exState.on_trade exTrade = some exState' ∧
      exState'.get_pos exTrade.vtSymbol =
        exState.get_pos exTrade.vtSymbol +
          (if exTrade.direction = "long" then
            (if exTrade.offset = "open" then exTrade.volume else -exTrade.volume)
          else
            (if exTrade.offset = "open" then -exTrade.volume else exTrade.volume)) :=
  ⟨rfl, C1_on_trade_position_delta exState exState' exTrade rfl⟩

/-- C2 counterexample: the claim fails for an arbitrary trade sequence —
dispatching a trade whose symbol has no recorded position raises
`KeyError` in `self.positions[vt_symbol] += ...` (here: `replay`
returns `none`), so no final `get_pos` value exists, let alone one equal
to the signed sum. -/
theorem C2_counterexample :
    ¬ ∃ st', exEmpty.replay [exTrade] = some st' ∧
        ∀ sym, st'.get_pos sym = signedSum sym [exTrade] := by
  rintro ⟨st', h1, -⟩
  have h0 : exEmpty.replay [exTrade] = none := by decide
  rw [h0] at h1
  exact Option.noConfusion h1

/-- C2 (amended): for every finite trade sequence in which each trade's
symbol.exchange key has a recorded position, replaying from all-zero
positions succeeds and yields, for every symbol, exactly the signed sum
of that symbol's trade volumes under the side/offset rule. -/
theorem C2_replay_signed_sum (st : CtaState) (trades : List Trade)
    (hkeys : ∀ t ∈ trades, (dget st.positions t.vtSymbol).isSome)
    (hzero : ∀ sym, st.get_pos sym = 0) :
    ∃ st', st.replay trades = some st' ∧
      ∀ sym, st'.get_pos sym = signedSum sym trades := by
  obtain ⟨st', h1, h2⟩ := replay_get_pos trades st hkeys
  exact ⟨st', h1, fun sym => by rw [h2 sym, hzero sym, zero_add]⟩

/-- C2 witness: replaying the sample trade on the freshly constructed
sample strategy. -/
theorem C2_witness :
    (∀ t ∈ [exTrade], (dget exState.positions t.vtSymbol).isSome) ∧
    (∀ sym, exState.get_pos sym = 0) ∧
    ∃ st', exState.replay [exTrade] = some st' ∧
      ∀ sym, st'.get_pos sym = signedSum sym [exTrade] :=
  ⟨by decide, fun sym => mkState_get_pos _ _ _ sym,
    C2_replay_signed_sum exState [exTrade] (by decide)
      (fun sym => mkState_get_pos _ _ _ sym)⟩

/-- C3: when the trading flag is false, `buy` and `sell` return the empty
order id, submit nothing, and return the state bit-for-bit unchanged
(no log entry either — the guard fires before any logging). -/
theorem C3_trading_disabled_rejects (st : CtaState) (now sym : String)
    (p v : ℚ) (lk : Bool) (h : st.trading = false) :
    st.buy now sym p v lk = { orderid := "", submitted := none, state := st } ∧
    st.sell now sym p v lk = { orderid := "", submitted := none, state := st } := by
  unfold CtaState.buy CtaState.sell
  simp [h]

/-- C3 witness: the freshly constructed sample strategy has
`trading = false` and both calls reject. -/
theorem C3_witness :
    exState.trading = false ∧
    exState.buy "n" "BTCUSDT.BINANCE" 1 1 false =
      { orderid := "", submitted := none, state := exState } ∧
    exState.sell "n" "BTCUSDT.BINANCE" 1 1 false =
      { orderid := "", submitted := none, state := exState } :=
  ⟨rfl,
    (C3_trading_disabled_rejects exState "n" "BTCUSDT.BINANCE" 1 1 false rfl).1,
    (C3_trading_disabled_rejects exState "n" "BTCUSDT.BINANCE" 1 1 false rfl).2⟩

/-- C4: for a spot strategy, `short` and `cover` reject for every price
and volume — empty order id, nothing submitted — regardless of the
trading flag, and the only state change is the log line (totality of the
Lean functions models the absence of an exception). -/
theorem C4_spot_short_cover_rejected (st : CtaState) (now sym : String)
    (p v : ℚ) (lk : Bool) (h : st.strategy_type = "spot") :
    (st.short now sym p v lk).orderid = "" ∧
    (st.short now sym p v lk).submitted = none ∧
    { (st.short now sym p v lk).state with log := st.log } = st ∧
    (st.cover now sym p v lk).orderid = "" ∧
    (st.cover now sym p v lk).submitted = none ∧
    { (st.cover now sym p v lk).state with log := st.log } = st := by
  unfold CtaState.short CtaState.cover
  simp only [if_pos h]
  exact ⟨trivial, trivial, rfl, trivial, trivial, rfl⟩

/-- C4 witness: the sample spot strategy with trading enabled still
rejects `short` and `cover`. -/
theorem C4_witness :
    exSpotTrading.strategy_type = "spot" ∧ exSpotTrading.trading = true ∧
    (exSpotTrading.short "n" "BTCUSDT.BINANCE" 5 1 false).orderid = "" ∧
    (exSpotTrading.short "n" "BTCUSDT.BINANCE" 5 1 false).submitted = none ∧
    { (exSpotTrading.short "n" "BTCUSDT.BINANCE" 5 1 false).state with
        log := exSpotTrading.log } = exSpotTrading ∧
    (exSpotTrading.cover "n" "BTCUSDT.BINANCE" 5 1 false).orderid = "" ∧
    (exSpotTrading.cover "n" "BTCUSDT.BINANCE" 5 1 false).submitted = none ∧
    { (exSpotTrading.cover "n" "BTCUSDT.BINANCE" 5 1 false).state with
        log := exSpotTrading.log } = exSpotTrading :=
  ⟨rfl, rfl,
    (C4_spot_short_cover_rejected exSpotTrading "n" "BTCUSDT.BINANCE" 5 1 false rfl).1,
    (C4_spot_short_cover_rejected exSpotTrading "n" "BTCUSDT.BINANCE" 5 1 false rfl).2.1,
    (C4_spot_short_cover_rejected exSpotTrading "n" "BTCUSDT.BINANCE" 5 1 false rfl).2.2.1,
    (C4_spot_short_cover_rejected exSpotTrading "n" "BTCUSDT.BINANCE" 5 1 false rfl).2.2.2.1,
    (C4_spot_short_cover_rejected exSpotTrading "n" "BTCUSDT.BINANCE" 5 1 false rfl).2.2.2.2.1,
    (C4_spot_short_cover_rejected exSpotTrading "n" "BTCUSDT.BINANCE" 5 1 false rfl).2.2.2.2.2⟩

/-- C5 counterexample: the base `CtaTemplate.on_start` only logs — on a
base-template instance with `trading = false` it does not set the flag
to true, refuting the claim for every strategy instance. -/
theorem C5_counterexample :
    ¬ ((Strategy.base exState).on_start.trading = true) := by decide

/-- C5 (amended): the two concrete strategies `DoubleMaStrategy` and
`GridStrategy` set `trading` to true in `on_start` and to false in
`on_stop`; the base `CtaTemplate` hooks leave the flag unchanged. -/
theorem C5_lifecycle_toggle (d : DmaState) (g : GridState) (b : CtaState) :
    (Strategy.dma d).on_start.trading = true ∧
    (Strategy.dma d).on_stop.trading = false ∧
    (Strategy.grid g).on_start.trading = true ∧
    (Strategy.grid g).on_stop.trading = false ∧
    (Strategy.base b).on_start.trading = b.trading ∧
    (Strategy.base b).on_stop.trading = b.trading :=
  ⟨rfl, rfl, rfl, rfl, rfl, rfl⟩

/-- C6: with trading enabled, `sell` on a spot strategy submits
(short, open) — never a close offset — while on a futures strategy it
submits (short, close); moreover no spot call submits any offset other
than "open" (`buy` submits (long, open); `short` and `cover` submit
nothing). -/
theorem C6_sell_offset_by_type (stS stF : CtaState) (now sym : String)
    (p v : ℚ) (lk : Bool)
    (hS : stS.strategy_type = "spot") (hStr : stS.trading = true)
    (hF : stF.strategy_type = "futures") (hFtr : stF.trading = true) :
    (stS.sell now sym p v lk).submitted =
      some { vt_symbol := sym, price := p, volume := v, direction := "short"
             offset := "open", lock := lk } ∧
    (stF.sell now sym p v lk).submitted =
      some { vt_symbol := sym, price := p, volume := v, direction := "short"
             offset := "close", lock := lk } ∧
    (stS.buy now sym p v lk).submitted =
      some { vt_symbol := sym, price := p, volume := v, direction := "long"
             offset := "open", lock := lk } ∧
    (stS.short now sym p v lk).submitted = none ∧
    (stS.cover now sym p v lk).submitted = none := by
  have hne : ¬ (stS.strategy_type = "futures") := by rw [hS]; decide
  refine ⟨?_, ?_, ?_, ?_, ?_⟩
  · unfold CtaState.sell CtaState.send_order
    simp [hStr, hne]
  · unfold CtaState.sell CtaState.send_order
    simp [hFtr, hF]
  · unfold CtaState.buy CtaState.send_order
    simp [hStr]
  · unfold CtaState.short
    simp [hS]
  · unfold CtaState.cover
    simp [hS]

/-- C6 witness: the sample spot and futures strategies with trading
enabled. -/
theorem C6_witness :
    (exSpotTrading.sell "n" "S.E" 7 1 false).submitted =
      some { vt_symbol := "S.E", price := 7, volume := 1, direction := "short"
             offset := "open", lock := false } ∧
    (exFutures.sell "n" "S.E" 7 1 false).submitted =
      some { vt_symbol := "S.E", price := 7, volume := 1, direction := "short"
             offset := "close", lock := false } ∧
    (exSpotTrading.buy "n" "S.E" 7 1 false).submitted =
      some { vt_symbol := "S.E", price := 7, volume := 1, direction := "long"
             offset := "open", lock := false } ∧
    (exSpotTrading.short "n" "S.E" 7 1 false).submitted = none ∧
    (exSpotTrading.cover "n" "S.E" 7 1 false).submitted = none :=
  C6_sell_offset_by_type exSpotTrading exFutures "n" "S.E" 7 1 false
    rfl rfl rfl rfl

/-- C7: of all strategy-template operations, only `on_trade` can change
the positions map — every lifecycle hook, data hook, order-status hook,
order-submission call and cancel call leaves every recorded position
unchanged, for the base template and both subclasses (`get_pos` is a
pure query returning a number and touches no state). -/
theorem C7_only_on_trade_mutates_positions (s : Strategy) (bar : Bar)
    (tick : Tick) (o : OrderDict) (now sym oid : String) (p v : ℚ) (lk : Bool) :
    s.on_init.positions = s.positions ∧
    s.on_start.positions = s.positions ∧
    s.on_stop.positions = s.positions ∧
    (s.on_bar bar).positions = s.positions ∧
    (s.on_tick now tick).positions = s.positions ∧
    (s.on_order o).positions = s.positions ∧
    (s.buy now sym p v lk).positions = s.positions ∧
    (s.sell now sym p v lk).positions = s.positions ∧
    (s.short now sym p v lk).positions = s.positions ∧
    (s.cover now sym p v lk).positions = s.positions ∧
    (s.cancel_order oid).positions = s.positions ∧
    s.cancel_all.positions = s.positions := by
  cases s <;>
    refine ⟨?_, ?_, ?_, ?_, ?_, ?_, ?_, ?_, ?_, ?_, ?_, ?_⟩ <;>
      simp [Strategy.on_init, Strategy.on_start, Strategy.on_stop,
        Strategy.on_bar, Strategy.on_tick, Strategy.on_order, Strategy.buy,
        Strategy.sell, Strategy.short, Strategy.cover, Strategy.cancel_order,
        Strategy.cancel_all, Strategy.mapBase, Strategy.positions,
        Strategy.ctaState, CtaState.on_init, CtaState.on_start,
        CtaState.on_stop, CtaState.on_bar, CtaState.on_tick, CtaState.on_order,
        CtaState.load_bars, CtaState.write_log, DmaState.on_init,
        DmaState.on_start, DmaState.on_stop, GridState.on_init,
        GridState.on_start, GridState.on_stop, write_log_positions,
        buy_state_positions, sell_state_positions, short_state_positions,
        cover_state_positions, cancel_order_positions, cancel_all_positions,
        dma_on_bar_positions, grid_on_tick_positions]

/-- C8: no look-ahead in the matching model — starting from an empty
order book, over any strictly time-ordered bar series and any strategy
behavior, every generated trade's timestamp is strictly greater than its
originating order's creation timestamp. -/
theorem C8_no_lookahead (strat : MBar → List MOrderReq) (bars : List MBar)
    (hbars : bars.Pairwise (fun b1 b2 => b1.ts < b2.ts)) :
    ∀ tr ∈ (runBars strat MEngine.initial bars).trades,
      tr.order_created_ts < tr.ts :=
  runBars_no_lookahead strat bars MEngine.initial hbars
    (fun o ho => absurd ho (by simp [MEngine.initial]))
    (fun tr htr => absurd htr (by simp [MEngine.initial]))

/-- C8 witness: an order submitted at the bar with timestamp 1 fills at
the bar with timestamp 2, and the no-look-ahead property holds on the
resulting non-empty trade log. -/
theorem C8_witness :
    exBars.Pairwise (fun b1 b2 => b1.ts < b2.ts) ∧
    (runBars exStrat MEngine.initial exBars).trades =
      [{ order_id := 0, order_created_ts := 1, price := 10, ts := 2 }] ∧
    ∀ tr ∈ (runBars exStrat MEngine.initial exBars).trades,
      tr.order_created_ts < tr.ts :=
  ⟨by decide, by decide, C8_no_lookahead exStrat exBars (by decide)⟩

/-- C9: the Sharpe ratio (spec formula, sample standard deviation,
fixed sqrt 252 annualization) is exactly zero on any zero-variance
daily-return series — the fallback is a defined value of a total
function, not an error. -/
theorem C9_sharpe_zero_variance (r : List ℚ)
    (h : ∀ x ∈ r, ∀ y ∈ r, x = y) :
    sampleVar r = 0 ∧ sharpe r = 0 := by
  have hv := sampleVar_const r h
  refine ⟨hv, ?_⟩
  unfold sharpe
  rw [if_pos hv]

/-- C9 witness: a flat return series has Sharpe ratio 0; the variance is
the sample one (denominator n - 1): for [0, 2] it is 2, not the
population value 1. -/
theorem C9_witness :
    (∀ x ∈ ([1, 1, 1] : List ℚ), ∀ y ∈ ([1, 1, 1] : List ℚ), x = y) ∧
    sampleVar [1, 1, 1] = 0 ∧ sharpe [1, 1, 1] = 0 ∧
    sampleVar [0, 2] = 2 :=
  ⟨by decide,
    (C9_sharpe_zero_variance [1, 1, 1] (by decide)).1,
    (C9_sharpe_zero_variance [1, 1, 1] (by decide)).2,
    by norm_num [sampleVar, listMean]⟩

/-- C10: `get_pos` is total — on a freshly constructed strategy it
returns 0 for every symbol string, subscribed or not (the Lean function
being total models the absence of an exception; unknown symbols hit the
`.get(sym, 0.0)` default, subscribed ones their initial 0.0 entry). -/
theorem C10_get_pos_total (name : String) (syms : List String)
    (ty sym : String) :
    (CtaTemplate.mkState name syms ty).get_pos sym = 0 :=
  mkState_get_pos name syms ty sym

end Vnrs
